import Mathlib

/-!
Verification of the `rp` (repo prompt) command line tool (`src/rp.py`).

The program aggregates prompt templates and file contents into a single XML
document.  We give a shallow embedding of `main` (file `rp.py`): strings are
modelled as `List Char`, the file system as a structure of total functions, and
the run of `main` as a pure function producing the exit code, the bytes written
to standard output, the lines printed to standard error, and the file write
performed via `-o`, if any.

The XML serialization mirrors `xml.etree.ElementTree.tostring(..,
encoding='utf-8', method='xml')` on the fixed document shape built by the
program: no XML declaration (the stdlib writes one only when the declared
encoding is outside utf-8/us-ascii), just the `<prompt>` element with a
`<templates>` and a `<files>` child, children self-closing (` />`) exactly
when they have neither text nor children, text escaped by `_escape_cdata`
(`&`, `<`, `>`) and attribute values by `_escape_attrib` (`&`, `<`, `>`,
`"`, CR, LF, TAB).
-/

set_option maxRecDepth 100000
set_option maxHeartbeats 2000000

/-- Python strings, modelled as lists of unicode scalar values. -/
abbrev Str := List Char

/-- Literal string to `Str`. -/
def S (s : String) : Str := s.data

/-- The apostrophe character (U+0027). -/
def squote : Char := Char.ofNat 39

/-- Python `str.isspace` for a single character (`Py_UNICODE_ISSPACE`):
the whitespace set used by `str.strip()` and `str.split()`. -/
def pyIsSpace (c : Char) : Bool :=
  let n := c.toNat
  (0x09 ≤ n && n ≤ 0x0d) || (0x1c ≤ n && n ≤ 0x1f) || n == 0x20 || n == 0x85 ||
  n == 0xa0 || n == 0x1680 || (0x2000 ≤ n && n ≤ 0x200a) || n == 0x2028 ||
  n == 0x2029 || n == 0x202f || n == 0x205f || n == 0x3000

/-- The line-boundary characters of Python `str.splitlines`. -/
def isLineBreakChar (c : Char) : Bool :=
  let n := c.toNat
  (0x0a ≤ n && n ≤ 0x0d) || (0x1c ≤ n && n ≤ 0x1e) || n == 0x85 ||
  n == 0x2028 || n == 0x2029

/-- Worker for `splitlines`; `acc` holds the current line reversed. -/
def splitlinesAux : Str → Str → List Str
  | [], acc => if acc.isEmpty then [] else [acc.reverse]
  | '\r' :: '\n' :: rest, acc => acc.reverse :: splitlinesAux rest []
  | c :: rest, acc =>
    if isLineBreakChar c then acc.reverse :: splitlinesAux rest []
    else splitlinesAux rest (c :: acc)

/-- Python `str.splitlines()`: split at line boundaries, `\r\n` counting as a
single boundary, with no trailing empty line for a trailing boundary. -/
def splitlines (s : Str) : List Str := splitlinesAux s []

/-- Python `str.strip()` with no argument: drop leading and trailing
whitespace. -/
def pyStrip (s : Str) : Str :=
  ((s.dropWhile pyIsSpace).reverse.dropWhile pyIsSpace).reverse

/-- Worker for `pySplit`; `acc` holds the current token reversed. -/
def pySplitAux : Str → Str → List Str
  | [], acc => if acc.isEmpty then [] else [acc.reverse]
  | c :: rest, acc =>
    if pyIsSpace c then
      if acc.isEmpty then pySplitAux rest [] else acc.reverse :: pySplitAux rest []
    else pySplitAux rest (c :: acc)

/-- Python `str.split()` with no argument: maximal runs of non-whitespace
characters, in order. -/
def pySplit (s : Str) : List Str := pySplitAux s []

/-- Worker for `countRuns`; the flag records whether the previous character
belonged to a (already counted) run. -/
def countRunsAux : Bool → Str → Nat
  | _, [] => 0
  | inRun, c :: rest =>
    if pyIsSpace c then countRunsAux false rest
    else (if inRun then 0 else 1) + countRunsAux true rest

/-- The number of maximal runs of non-whitespace characters in a string:
the specification's description of the token count. -/
def countRuns (s : Str) : Nat := countRunsAux false s

/-- Python `posixpath.basename`: everything after the last `/` (the whole string if
there is no `/`). -/
def basename (s : Str) : Str :=
  (s.reverse.takeWhile (fun c => c ≠ '/')).reverse

/-- Python `str.replace` for a single-character pattern: every occurrence of
`p` becomes `r`. -/
def replaceChar : Str → Char → Str → Str
  | [], _, _ => []
  | c :: rest, p, r => (if c = p then r else [c]) ++ replaceChar rest p r

/-- The function `xml.etree.ElementTree._escape_cdata`: escape `&`, `<`, `>` (in that
order) in text content. -/
def escape_cdata (s : Str) : Str :=
  replaceChar (replaceChar (replaceChar s '&' (S "&amp;")) '<' (S "&lt;")) '>' (S "&gt;")

/-- The function `xml.etree.ElementTree._escape_attrib`: escape `&`, `<`, `>`, `"`, CR,
LF, TAB (in that order) in attribute values. -/
def escape_attrib (s : Str) : Str :=
  replaceChar (replaceChar (replaceChar (replaceChar (replaceChar (replaceChar
    (replaceChar s '&' (S "&amp;"))
    '<' (S "&lt;")) '>' (S "&gt;")) '"' (S "&quot;"))
    '\r' (S "&#13;")) '\n' (S "&#10;")) '\t' (S "&#09;")

/-- Serialization of an element with one attribute, text content and no
children, as `ElementTree._serialize_xml` with `short_empty_elements=True`
renders it: self-closing exactly when the text is empty (Python `None`-or-empty
is falsy). -/
def serializeLeaf (tag attrName attrVal text : Str) : Str :=
  S "<" ++ tag ++ S " " ++ attrName ++ S "=\"" ++ escape_attrib attrVal ++ S "\"" ++
  (if text.isEmpty then S " />" else S ">" ++ escape_cdata text ++ S "</" ++ tag ++ S ">")

/-- Serialization of an element with no attributes and no text, whose children
are already rendered: self-closing exactly when there are no children. -/
def serializeGroup (tag : Str) (children : List Str) : Str :=
  if children.isEmpty then S "<" ++ tag ++ S " />"
  else S "<" ++ tag ++ S ">" ++ children.flatten ++ S "</" ++ tag ++ S ">"

/-- One `<template name="...">...</template>` node; `main` sets the attribute
to `os.path.basename(t_name)`. -/
def templateNode (t : Str × Str) : Str :=
  serializeLeaf (S "template") (S "name") (basename t.1) t.2

/-- One `<file path="...">...</file>` node. -/
def fileNode (f : Str × Str) : Str :=
  serializeLeaf (S "file") (S "path") f.1 f.2

/-- The string `ET.tostring(prompt_el, encoding='utf-8', method='xml').decode('utf-8')`
for the document `main` builds from its `templates` and `files_data` lists.
For the encoding `utf-8` the stdlib emits no XML declaration (it writes one
only when `xml_declaration` is forced or the declared encoding is outside
utf-8/us-ascii), so the text starts at `<prompt>`. -/
def renderDocument (templates files : List (Str × Str)) : Str :=
  S "<prompt>" ++
  serializeGroup (S "templates") (templates.map templateNode) ++
  serializeGroup (S "files") (files.map fileNode) ++
  S "</prompt>"

/-! ## The program model

`main(argv)` of `rp.py`, after `argparse` has produced the options.  The file
system is a structure of total functions: `isfile` models `os.path.isfile`,
`read` models `open(..).read()` (`none` = `IOError`), `canWrite` models whether
`open(path, 'w')`/`write` succeeds. -/

/-- The file-system collaborator. -/
structure FS where
  isfile : Str → Bool
  read : Str → Option Str
  canWrite : Str → Bool

/-- The parsed options, as `argparse` delivers them to `main`:
`prompt` = repeated `-p`, `file` = repeated `-f`, `listFile` = `-l`,
`output` = `-o`, `silent` = `-s`, `additional_prompts` = positionals. -/
structure Args where
  prompt : List Str := []
  file : List Str := []
  listFile : Option Str := none
  output : Option Str := none
  silent : Bool := false
  additional_prompts : List Str := []

/-- The observable outcome of one run of `main`: the returned exit code, the
bytes written to standard output, the lines printed to standard error (each
`print(..., file=sys.stderr)` call, without its trailing newline), and the
content written to the `-o` destination, if any. -/
structure RunResult where
  exitCode : Nat
  stdout : Str
  stderr : List Str
  written : Option (Str × Str)
deriving DecidableEq

/-- The message `"Error: List file '{p}' does not exist or is not accessible."` -/
def errListMissing (p : Str) : Str :=
  S "Error: List file " ++ [squote] ++ p ++ [squote] ++
  S " does not exist or is not accessible."

/-- The message `"Error: Could not read list file '{p}'."` -/
def errListRead (p : Str) : Str :=
  S "Error: Could not read list file " ++ [squote] ++ p ++ [squote] ++ S "."

/-- The message `"Error: Prompt template file '{p}' does not exist or is not accessible."` -/
def errPromptMissing (p : Str) : Str :=
  S "Error: Prompt template file " ++ [squote] ++ p ++ [squote] ++
  S " does not exist or is not accessible."

/-- The message `"Error: Could not read prompt template file '{p}'."` -/
def errPromptRead (p : Str) : Str :=
  S "Error: Could not read prompt template file " ++ [squote] ++ p ++ [squote] ++ S "."

/-- The message `"Error: File '{p}' does not exist or is not accessible."` -/
def errFileMissing (p : Str) : Str :=
  S "Error: File " ++ [squote] ++ p ++ [squote] ++
  S " does not exist or is not accessible."

/-- The message `"Error: Could not read file '{p}'."` -/
def errFileRead (p : Str) : Str :=
  S "Error: Could not read file " ++ [squote] ++ p ++ [squote] ++ S "."

/-- The message `"Error: Could not write to output file '{p}'."` -/
def errWriteMsg (p : Str) : Str :=
  S "Error: Could not write to output file " ++ [squote] ++ p ++ [squote] ++ S "."

/-- The `# Handle -l list file` block: if a list file is given (and, per
Python truthiness, its path is nonempty), it must exist and be readable; its
non-blank lines, stripped, are appended to the `-f` paths. -/
def resolveListPhase (fs : FS) (listOpt : Option Str) (file_paths : List Str) :
    Except Str (List Str) :=
  match listOpt with
  | none => .ok file_paths
  | some lp =>
    if lp.isEmpty then .ok file_paths
    else if fs.isfile lp = false then .error (errListMissing lp)
    else
      match fs.read lp with
      | none => .error (errListRead lp)
      | some list_content =>
        .ok (file_paths ++
          (((splitlines list_content).map pyStrip).filter (fun l => l.isEmpty = false)))

/-- One read-all loop over paths (the shape shared by the `# Read prompt
templates` and `# Read files` blocks): each path must satisfy `isfile` and be
readable; the first failure aborts with the corresponding message. -/
def readEachFile (fs : FS) (missingMsg readMsg : Str → Str) :
    List Str → Except Str (List (Str × Str))
  | [] => .ok []
  | p :: rest =>
    if fs.isfile p = false then .error (missingMsg p)
    else
      match fs.read p with
      | none => .error (readMsg p)
      | some content =>
        match readEachFile fs missingMsg readMsg rest with
        | .error e => .error e
        | .ok l => .ok ((p, content) :: l)

/-- The `# Read prompt templates` loop. -/
def readTemplatesPhase (fs : FS) (prompt_paths : List Str) :
    Except Str (List (Str × Str)) :=
  readEachFile fs errPromptMissing errPromptRead prompt_paths

/-- The `# Read files` loop. -/
def readFilesPhase (fs : FS) (file_paths : List Str) :
    Except Str (List (Str × Str)) :=
  readEachFile fs errFileMissing errFileRead file_paths

/-- Worker for `inlineTemplates`: `enumerate`, with names
`f"inline_prompt_{idx+1}"`. -/
def inlineTemplatesFrom : Nat → List Str → List (Str × Str)
  | _, [] => []
  | idx, s :: rest =>
    (S "inline_prompt_" ++ (Nat.repr (idx + 1)).data, s) :: inlineTemplatesFrom (idx + 1) rest

/-- The `# Add inline prompt templates` loop. -/
def inlineTemplates (inline_prompts : List Str) : List (Str × Str) :=
  inlineTemplatesFrom 0 inline_prompts

/-- The default template substituted by `if not templates:`. -/
def defaultTemplate : Str × Str :=
  (S "default",
   S "Please analyze the provided files and summarize their purpose and functionality.")

/-- The statement `if not templates: templates = [("default", ...)]`. -/
def applyDefault (templates : List (Str × Str)) : List (Str × Str) :=
  if templates.isEmpty then [defaultTemplate] else templates

/-- The whole input-resolution part of `main`, in source order: list phase,
template phase (with inline templates and the default), file phase.  Produces
the `templates` and `files_data` lists that reach serialization, or the first
error message. -/
def resolveInputs (fs : FS) (a : Args) :
    Except Str (List (Str × Str) × List (Str × Str)) :=
  match resolveListPhase fs a.listFile a.file with
  | .error e => .error e
  | .ok file_paths =>
    match readTemplatesPhase fs a.prompt with
    | .error e => .error e
    | .ok fileTemplates =>
      let templates := applyDefault (fileTemplates ++ inlineTemplates a.additional_prompts)
      match readFilesPhase fs file_paths with
      | .error e => .error e
      | .ok files_data => .ok (templates, files_data)

/-- The line `f"Success: Prompt generated with {token_count} tokens."` with
`token_count = len(final_str.split())`. -/
def successLine (final_str : Str) : Str :=
  S "Success: Prompt generated with " ++ (Nat.repr (pySplit final_str).length).data ++
  S " tokens."

/-- The run of `main` on parsed options `a` over file system `fs`: resolve
inputs (first failure prints its message unless silent and returns 1), render
the document, deliver it to the `-o` destination (nonempty path, per Python
truthiness) or to standard output with a trailing newline from `print`, then
print the success line unless silent and return 0. -/
def mainRun (fs : FS) (a : Args) : RunResult :=
  match resolveInputs fs a with
  | .error msg => ⟨1, [], if a.silent then [] else [msg], none⟩
  | .ok (templates, files_data) =>
    let final_str := renderDocument templates files_data
    let succ : Str → Option (Str × Str) → RunResult := fun out wr =>
      ⟨0, out, if a.silent then [] else [successLine final_str], wr⟩
    match a.output with
    | some opath =>
      if opath.isEmpty then succ (final_str ++ [Char.ofNat 10]) none
      else if fs.canWrite opath = false then
        ⟨1, [], if a.silent then [] else [errWriteMsg opath], none⟩
      else succ [] (some (opath, final_str))
    | none => succ (final_str ++ [Char.ofNat 10]) none

/-! ## A conformant reader of the output format

The round-trip property quantifies over a conformant parser of the emitted
XML, which is not part of this repository.  The following functions model,
from the XML 1.0 recommendation, what such a parser does to the character
region where one escaped text (or attribute value) was embedded: mandatory
end-of-line normalization (§2.11), reference expansion (§4.6 predefined
entities and the character references the serializer emits), the `Char`
production (§2.2), and attribute-value normalization (§3.3.3). -/

/-- The XML 1.0 `Char` production: characters representable in a
well-formed XML 1.0 document. -/
def validXmlChar (c : Char) : Bool :=
  let n := c.toNat
  n == 0x9 || n == 0xa || n == 0xd || (0x20 ≤ n && n ≤ 0xd7ff) ||
  (0xe000 ≤ n && n ≤ 0xfffd) || (0x10000 ≤ n && n ≤ 0x10ffff)

/-- XML 1.0 §2.11: a processor must translate `CR LF` and any lone `CR`
to a single `LF` before parsing. -/
def xmlEolNormalize : Str → Str
  | [] => []
  | [c] => [if c = '\r' then '\n' else c]
  | c1 :: c2 :: rest =>
    if c1 = '\r' then
      if c2 = '\n' then '\n' :: xmlEolNormalize rest
      else '\n' :: xmlEolNormalize (c2 :: rest)
    else c1 :: xmlEolNormalize (c2 :: rest)

/-- Recovery of text content: expand the predefined entities the serializer
can emit in text (`&amp;`, `&lt;`, `&gt;`), reject a raw `<` (it would start
markup, so the region would not be this text) and any character outside the
`Char` production (the document would not be well-formed). -/
def expandText : Str → Option Str
  | [] => some []
  | '&' :: 'a' :: 'm' :: 'p' :: ';' :: rest => (expandText rest).map (fun u => '&' :: u)
  | '&' :: 'l' :: 't' :: ';' :: rest => (expandText rest).map (fun u => '<' :: u)
  | '&' :: 'g' :: 't' :: ';' :: rest => (expandText rest).map (fun u => '>' :: u)
  | '&' :: _ => none
  | c :: rest =>
    if c = '<' then none
    else if validXmlChar c then (expandText rest).map (fun u => c :: u)
    else none

/-- Recovery of a double-quoted attribute value: expand the references the
serializer can emit (`&amp;`, `&lt;`, `&gt;`, `&quot;`, `&#13;`, `&#10;`,
`&#09;`), reject a raw `<` or `"`, and apply attribute-value normalization:
a literal TAB, LF or CR becomes a space, while a character reference keeps
the referenced character. -/
def expandAttr : Str → Option Str
  | [] => some []
  | '&' :: 'a' :: 'm' :: 'p' :: ';' :: rest => (expandAttr rest).map (fun u => '&' :: u)
  | '&' :: 'l' :: 't' :: ';' :: rest => (expandAttr rest).map (fun u => '<' :: u)
  | '&' :: 'g' :: 't' :: ';' :: rest => (expandAttr rest).map (fun u => '>' :: u)
  | '&' :: 'q' :: 'u' :: 'o' :: 't' :: ';' :: rest => (expandAttr rest).map (fun u => '"' :: u)
  | '&' :: '#' :: d1 :: d2 :: ';' :: rest =>
    if d1 = '1' ∧ d2 = '3' then (expandAttr rest).map (fun u => '\r' :: u)
    else if d1 = '1' ∧ d2 = '0' then (expandAttr rest).map (fun u => '\n' :: u)
    else if d1 = '0' ∧ d2 = '9' then (expandAttr rest).map (fun u => '\t' :: u)
    else none
  | '&' :: _ => none
  | c :: rest =>
    if c = '<' || c = '"' then none
    else if c = '\t' || c = '\n' || c = '\r' then (expandAttr rest).map (fun u => ' ' :: u)
    else if validXmlChar c then (expandAttr rest).map (fun u => c :: u)
    else none

/-- What a conformant parser recovers from the region where one escaped text
content was embedded. -/
def conformantTextParse (s : Str) : Option Str := expandText (xmlEolNormalize s)

/-- What a conformant parser recovers from the region where one escaped
attribute value was embedded. -/
def conformantAttrParse (s : Str) : Option Str := expandAttr (xmlEolNormalize s)

/-- The per-character form of `_escape_cdata`. -/
def escC (c : Char) : Str :=
  if c = '&' then S "&amp;"
  else if c = '<' then S "&lt;"
  else if c = '>' then S "&gt;"
  else [c]

/-- The per-character form of `_escape_attrib`. -/
def escA (c : Char) : Str :=
  if c = '&' then S "&amp;"
  else if c = '<' then S "&lt;"
  else if c = '>' then S "&gt;"
  else if c = '"' then S "&quot;"
  else if c = '\r' then S "&#13;"
  else if c = '\n' then S "&#10;"
  else if c = '\t' then S "&#09;"
  else [c]

/-- A file system used to instantiate the theorems on concrete runs. -/
def fsDemo : FS where
  isfile p :=
    p = S "t.txt" || p = S "a.txt" || p = S "b.txt" || p = S "list.txt" ||
    p = S "c.txt" || p = S "d.txt" || p = S "locked.txt"
  read p :=
    if p = S "t.txt" then some (S "Hello world")
    else if p = S "a.txt" then some (S "alpha beta")
    else if p = S "b.txt" then some (S "bee")
    else if p = S "list.txt" then some (S " c.txt \n\nd.txt\n")
    else if p = S "c.txt" then some (S "gamma")
    else if p = S "d.txt" then some (S "delta")
    else none
  canWrite p := !(p = S "nowrite.txt")

/-- The options `-f b.txt -s`, used to instantiate theorems about `-o`. -/
def argsB0 : Args := { file := [S "b.txt"], silent := true }

/-! ## Tokenization lemmas -/

theorem pySplitAux_length (s : Str) (acc : Str) :
    (pySplitAux s acc).length =
      (if acc.isEmpty then 0 else 1) + countRunsAux (!acc.isEmpty) s := by
  induction s generalizing acc with
  | nil =>
    by_cases h : acc.isEmpty <;> simp [pySplitAux, countRunsAux, h]
  | cons c rest ih =>
    by_cases hc : pyIsSpace c
    · by_cases h : acc.isEmpty
      · simp [pySplitAux, countRunsAux, hc, h, ih]
      · simp [pySplitAux, countRunsAux, hc, h, ih]
        omega
    · have h2 := ih (c :: acc)
      by_cases h : acc.isEmpty
      · simp [pySplitAux, countRunsAux, hc, h, h2]
      · simp [pySplitAux, countRunsAux, hc, h, h2]

/-- Python `len(final_str.split())` computes exactly the number of maximal runs of
non-whitespace characters. -/
theorem pySplit_length_eq_countRuns (s : Str) : (pySplit s).length = countRuns s := by
  simpa [pySplit, countRuns] using pySplitAux_length s []

/-! ## Escaping and round-trip lemmas -/

theorem replaceChar_append (a b : Str) (p : Char) (r : Str) :
    replaceChar (a ++ b) p r = replaceChar a p r ++ replaceChar b p r := by
  induction a with
  | nil => rfl
  | cons c rest ih => simp [replaceChar, ih, List.append_assoc]

theorem escape_cdata_cons (c : Char) (s : Str) :
    escape_cdata (c :: s) = escC c ++ escape_cdata s := by
  unfold escape_cdata
  rw [show ((c :: s : Str)) = [c] ++ s from rfl]
  rw [replaceChar_append, replaceChar_append, replaceChar_append]
  congr 1
  by_cases h1 : c = '&'
  · subst h1; decide
  by_cases h2 : c = '<'
  · subst h2; decide
  by_cases h3 : c = '>'
  · subst h3; decide
  simp [replaceChar, escC, h1, h2, h3]

theorem escape_attrib_cons (c : Char) (s : Str) :
    escape_attrib (c :: s) = escA c ++ escape_attrib s := by
  unfold escape_attrib
  rw [show ((c :: s : Str)) = [c] ++ s from rfl]
  rw [replaceChar_append, replaceChar_append, replaceChar_append,
    replaceChar_append, replaceChar_append, replaceChar_append, replaceChar_append]
  congr 1
  by_cases h1 : c = '&'
  · subst h1; decide
  by_cases h2 : c = '<'
  · subst h2; decide
  by_cases h3 : c = '>'
  · subst h3; decide
  by_cases h4 : c = '"'
  · subst h4; decide
  by_cases h5 : c = '\r'
  · subst h5; decide
  by_cases h6 : c = '\n'
  · subst h6; decide
  by_cases h7 : c = '\t'
  · subst h7; decide
  simp [replaceChar, escA, h1, h2, h3, h4, h5, h6, h7]

theorem cr_not_mem_escC (c : Char) (h : c ≠ '\r') : '\r' ∉ escC c := by
  by_cases h1 : c = '&'
  · subst h1; decide
  by_cases h2 : c = '<'
  · subst h2; decide
  by_cases h3 : c = '>'
  · subst h3; decide
  have he : escC c = [c] := by simp [escC, h1, h2, h3]
  rw [he]
  simp only [List.mem_singleton]
  exact fun e => h e.symm

theorem cr_not_mem_escA (c : Char) : '\r' ∉ escA c := by
  by_cases h1 : c = '&'
  · subst h1; decide
  by_cases h2 : c = '<'
  · subst h2; decide
  by_cases h3 : c = '>'
  · subst h3; decide
  by_cases h4 : c = '"'
  · subst h4; decide
  by_cases h5 : c = '\r'
  · subst h5; decide
  by_cases h6 : c = '\n'
  · subst h6; decide
  by_cases h7 : c = '\t'
  · subst h7; decide
  have he : escA c = [c] := by simp [escA, h1, h2, h3, h4, h5, h6, h7]
  rw [he]
  simp only [List.mem_singleton]
  exact fun e => h5 e.symm

theorem escape_cdata_no_cr (s : Str) (h : '\r' ∉ s) : '\r' ∉ escape_cdata s := by
  induction s with
  | nil => intro hm; exact absurd hm (by decide)
  | cons c rest ih =>
    rw [escape_cdata_cons]
    intro hm
    rcases List.mem_append.mp hm with hin | hin
    · exact cr_not_mem_escC c (fun e => h (e ▸ List.mem_cons_self c rest)) hin
    · exact ih (fun hr => h (List.mem_cons_of_mem c hr)) hin

theorem escape_attrib_no_cr (s : Str) : '\r' ∉ escape_attrib s := by
  induction s with
  | nil => intro hm; exact absurd hm (by decide)
  | cons c rest ih =>
    rw [escape_attrib_cons]
    intro hm
    rcases List.mem_append.mp hm with hin | hin
    · exact cr_not_mem_escA c hin
    · exact ih hin

theorem xmlEolNormalize_no_cr (t : Str) (h : '\r' ∉ t) : xmlEolNormalize t = t := by
  induction t with
  | nil => rfl
  | cons c rest ih =>
    have hc : c ≠ '\r' := fun e => h (e ▸ List.mem_cons_self c rest)
    have ht : '\r' ∉ rest := fun hm => h (List.mem_cons_of_mem c hm)
    cases rest with
    | nil => simp [xmlEolNormalize, hc]
    | cons c2 rest2 =>
      simp only [xmlEolNormalize, if_neg hc]
      rw [ih ht]

theorem expandText_amp (rest : Str) :
    expandText (S "&amp;" ++ rest) = (expandText rest).map (fun u => '&' :: u) := rfl

theorem expandText_lt (rest : Str) :
    expandText (S "&lt;" ++ rest) = (expandText rest).map (fun u => '<' :: u) := rfl

theorem expandText_gt (rest : Str) :
    expandText (S "&gt;" ++ rest) = (expandText rest).map (fun u => '>' :: u) := rfl

theorem expandText_cons (c : Char) (rest : Str) (h1 : c ≠ '&') (h2 : c ≠ '<')
    (h3 : validXmlChar c = true) :
    expandText (c :: rest) = (expandText rest).map (fun u => c :: u) := by
  rw [expandText.eq_def]
  split <;> simp_all

/-- Embedded-then-expanded text content comes back unchanged, for any text of
XML-representable characters. -/
theorem expandText_escape (s : Str) (h : ∀ c ∈ s, validXmlChar c = true) :
    expandText (escape_cdata s) = some s := by
  induction s with
  | nil => rfl
  | cons c rest ih =>
    have hrest := fun d hd => h d (List.mem_cons_of_mem c hd)
    have hc := h c (List.mem_cons_self c rest)
    have ihr := ih hrest
    rw [escape_cdata_cons]
    by_cases h1 : c = '&'
    · subst h1
      rw [show escC '&' = S "&amp;" from rfl, expandText_amp, ihr]; rfl
    by_cases h2 : c = '<'
    · subst h2
      rw [show escC '<' = S "&lt;" from rfl, expandText_lt, ihr]; rfl
    by_cases h3 : c = '>'
    · subst h3
      rw [show escC '>' = S "&gt;" from rfl, expandText_gt, ihr]; rfl
    have he : escC c = [c] := by simp [escC, h1, h2, h3]
    rw [he, List.singleton_append, expandText_cons c _ h1 h2 hc, ihr]
    rfl

theorem expandAttr_amp (rest : Str) :
    expandAttr (S "&amp;" ++ rest) = (expandAttr rest).map (fun u => '&' :: u) := rfl

theorem expandAttr_lt (rest : Str) :
    expandAttr (S "&lt;" ++ rest) = (expandAttr rest).map (fun u => '<' :: u) := rfl

theorem expandAttr_gt (rest : Str) :
    expandAttr (S "&gt;" ++ rest) = (expandAttr rest).map (fun u => '>' :: u) := rfl

theorem expandAttr_quot (rest : Str) :
    expandAttr (S "&quot;" ++ rest) = (expandAttr rest).map (fun u => '"' :: u) := rfl

theorem expandAttr_cr (rest : Str) :
    expandAttr (S "&#13;" ++ rest) = (expandAttr rest).map (fun u => '\r' :: u) := rfl

theorem expandAttr_lf (rest : Str) :
    expandAttr (S "&#10;" ++ rest) = (expandAttr rest).map (fun u => '\n' :: u) := rfl

theorem expandAttr_tab (rest : Str) :
    expandAttr (S "&#09;" ++ rest) = (expandAttr rest).map (fun u => '\t' :: u) := rfl

theorem expandAttr_cons (c : Char) (rest : Str) (h1 : c ≠ '&') (h2 : c ≠ '<')
    (h3 : c ≠ '"') (h4 : c ≠ '\t') (h5 : c ≠ '\n') (h6 : c ≠ '\r')
    (h7 : validXmlChar c = true) :
    expandAttr (c :: rest) = (expandAttr rest).map (fun u => c :: u) := by
  rw [expandAttr.eq_def]
  split <;> simp_all

/-- Embedded-then-expanded attribute values come back unchanged, for any text
of XML-representable characters (TAB, LF and CR included: they are emitted as
character references, which attribute-value normalization preserves). -/
theorem expandAttr_escape (s : Str) (h : ∀ c ∈ s, validXmlChar c = true) :
    expandAttr (escape_attrib s) = some s := by
  induction s with
  | nil => rfl
  | cons c rest ih =>
    have hrest := fun d hd => h d (List.mem_cons_of_mem c hd)
    have hc := h c (List.mem_cons_self c rest)
    have ihr := ih hrest
    rw [escape_attrib_cons]
    by_cases h1 : c = '&'
    · subst h1
      rw [show escA '&' = S "&amp;" from rfl, expandAttr_amp, ihr]; rfl
    by_cases h2 : c = '<'
    · subst h2
      rw [show escA '<' = S "&lt;" from rfl, expandAttr_lt, ihr]; rfl
    by_cases h3 : c = '>'
    · subst h3
      rw [show escA '>' = S "&gt;" from rfl, expandAttr_gt, ihr]; rfl
    by_cases h4 : c = '"'
    · subst h4
      rw [show escA '"' = S "&quot;" from rfl, expandAttr_quot, ihr]; rfl
    by_cases h5 : c = '\r'
    · subst h5
      rw [show escA '\r' = S "&#13;" from rfl, expandAttr_cr, ihr]; rfl
    by_cases h6 : c = '\n'
    · subst h6
      rw [show escA '\n' = S "&#10;" from rfl, expandAttr_lf, ihr]; rfl
    by_cases h7 : c = '\t'
    · subst h7
      rw [show escA '\t' = S "&#09;" from rfl, expandAttr_tab, ihr]; rfl
    have he : escA c = [c] := by simp [escA, h1, h2, h3, h4, h5, h6, h7]
    rw [he, List.singleton_append, expandAttr_cons c _ h1 h2 h4 h7 h6 h5 hc, ihr]
    rfl

/-- Round trip for text content, provided the text contains no carriage
return: serialize with `_escape_cdata`, read back with a conformant parser. -/
theorem conformantTextParse_escape (s : Str) (hval : ∀ c ∈ s, validXmlChar c = true)
    (hcr : '\r' ∉ s) : conformantTextParse (escape_cdata s) = some s := by
  unfold conformantTextParse
  rw [xmlEolNormalize_no_cr _ (escape_cdata_no_cr s hcr), expandText_escape s hval]

/-- Round trip for attribute values: serialize with `_escape_attrib`, read
back with a conformant parser. -/
theorem conformantAttrParse_escape (s : Str) (hval : ∀ c ∈ s, validXmlChar c = true) :
    conformantAttrParse (escape_attrib s) = some s := by
  unfold conformantAttrParse
  rw [xmlEolNormalize_no_cr _ (escape_attrib_no_cr s), expandAttr_escape s hval]

/-! ## Input-resolution lemmas -/

theorem readEachFile_ok_fst (fs : FS) (m r : Str → Str) (ps : List Str)
    (l : List (Str × Str)) (h : readEachFile fs m r ps = .ok l) :
    l.map Prod.fst = ps := by
  induction ps generalizing l with
  | nil =>
    rw [readEachFile] at h
    cases h
    rfl
  | cons p rest ih =>
    rw [readEachFile] at h
    by_cases hif : fs.isfile p = false
    · rw [if_pos hif] at h; cases h
    · rw [if_neg hif] at h
      cases hread : fs.read p with
      | none => rw [hread] at h; cases h
      | some content =>
        rw [hread] at h
        cases hrec : readEachFile fs m r rest with
        | error e => rw [hrec] at h; cases h
        | ok l2 =>
          rw [hrec] at h
          cases h
          simp [ih l2 hrec]

theorem readEachFile_firstError (fs : FS) (m r : Str → Str) (pre : List Str)
    (p : Str) (post : List Str)
    (hpre : ∀ q ∈ pre, fs.isfile q = true ∧ ∃ c, fs.read q = some c)
    (hfail : fs.isfile p = false ∨ fs.read p = none) :
    readEachFile fs m r (pre ++ p :: post) =
      .error (if fs.isfile p = false then m p else r p) := by
  induction pre with
  | nil =>
    simp only [List.nil_append]
    rw [readEachFile]
    by_cases hif : fs.isfile p = false
    · rw [if_pos hif, if_pos hif]
    · rw [if_neg hif, if_neg hif]
      rcases hfail with hf | hf
      · exact absurd hf hif
      · rw [hf]
  | cons q pre ih =>
    obtain ⟨hq1, c, hc⟩ := hpre q (List.mem_cons_self q pre)
    simp only [List.cons_append]
    rw [readEachFile]
    rw [if_neg (by simp [hq1]), hc,
      ih (fun z hz => hpre z (List.mem_cons_of_mem q hz))]

theorem resolveListPhase_some (fs : FS) (lp : Str) (files : List Str) (lc : Str)
    (hlp : lp ≠ []) (hif : fs.isfile lp = true) (hrd : fs.read lp = some lc) :
    resolveListPhase fs (some lp) files =
      .ok (files ++ ((splitlines lc).map pyStrip).filter (fun l => l.isEmpty = false)) := by
  have h0 : lp.isEmpty = false := by
    cases lp with
    | nil => exact absurd rfl hlp
    | cons c t => rfl
  rw [resolveListPhase]
  rw [if_neg (by simp [h0]), if_neg (by simp [hif]), hrd]

theorem inlineTemplatesFrom_length (k : Nat) (ps : List Str) :
    (inlineTemplatesFrom k ps).length = ps.length := by
  induction ps generalizing k with
  | nil => rfl
  | cons s rest ih => simp [inlineTemplatesFrom, ih]

theorem inlineTemplatesFrom_getElem? (k : Nat) (ps : List Str) (i : Nat) :
    (inlineTemplatesFrom k ps)[i]? =
      (ps[i]?).map (fun s => (S "inline_prompt_" ++ (Nat.repr (k + i + 1)).data, s)) := by
  induction ps generalizing k i with
  | nil => simp [inlineTemplatesFrom]
  | cons s rest ih =>
    cases i with
    | zero => simp [inlineTemplatesFrom]
    | succ j =>
      have harith : k + 1 + j + 1 = k + (j + 1) + 1 := by omega
      simp only [inlineTemplatesFrom, List.getElem?_cons_succ, ih (k + 1) j, harith]

theorem applyDefault_ne_nil (l : List (Str × Str)) : applyDefault l ≠ [] := by
  unfold applyDefault
  split
  · simp
  · simp_all [List.isEmpty_iff]

theorem resolveInputs_ok_parts (fs : FS) (a : Args) (T F : List (Str × Str))
    (h : resolveInputs fs a = .ok (T, F)) :
    ∃ fps ts, resolveListPhase fs a.listFile a.file = .ok fps ∧
      readTemplatesPhase fs a.prompt = .ok ts ∧
      readFilesPhase fs fps = .ok F ∧
      T = applyDefault (ts ++ inlineTemplates a.additional_prompts) := by
  unfold resolveInputs at h
  split at h
  · cases h
  · rename_i fps h1
    split at h
    · cases h
    · rename_i ts h2
      split at h
      · cases h
      · rename_i fd h3
        cases h
        exact ⟨fps, ts, h1, h2, h3, rfl⟩

/-! ## Shape of `mainRun` in each terminal situation -/

theorem mainRun_err (fs : FS) (a : Args) (msg : Str)
    (h : resolveInputs fs a = .error msg) :
    mainRun fs a = ⟨1, [], if a.silent then [] else [msg], none⟩ := by
  unfold mainRun
  rw [h]

theorem mainRun_ok_stdout (fs : FS) (a : Args) (T F : List (Str × Str))
    (h : resolveInputs fs a = .ok (T, F)) (ho : a.output = none) :
    mainRun fs a =
      ⟨0, renderDocument T F ++ [Char.ofNat 10],
        if a.silent then [] else [successLine (renderDocument T F)], none⟩ := by
  unfold mainRun
  rw [h]
  simp only [ho]

theorem mainRun_ok_output_empty (fs : FS) (a : Args) (T F : List (Str × Str))
    (op : Str) (h : resolveInputs fs a = .ok (T, F)) (ho : a.output = some op)
    (hop : op.isEmpty = true) :
    mainRun fs a =
      ⟨0, renderDocument T F ++ [Char.ofNat 10],
        if a.silent then [] else [successLine (renderDocument T F)], none⟩ := by
  unfold mainRun
  rw [h]
  simp only [ho, hop, if_pos]

theorem mainRun_ok_write (fs : FS) (a : Args) (T F : List (Str × Str)) (op : Str)
    (h : resolveInputs fs a = .ok (T, F)) (ho : a.output = some op)
    (hop : op.isEmpty = false) (hw : fs.canWrite op = true) :
    mainRun fs a =
      ⟨0, [], if a.silent then [] else [successLine (renderDocument T F)],
        some (op, renderDocument T F)⟩ := by
  unfold mainRun
  rw [h]
  simp only [ho, hop, hw]
  rfl

theorem mainRun_write_fail (fs : FS) (a : Args) (T F : List (Str × Str)) (op : Str)
    (h : resolveInputs fs a = .ok (T, F)) (ho : a.output = some op)
    (hop : op.isEmpty = false) (hw : fs.canWrite op = false) :
    mainRun fs a = ⟨1, [], if a.silent then [] else [errWriteMsg op], none⟩ := by
  unfold mainRun
  rw [h]
  simp only [ho, hop, hw]
  rfl

theorem serializeGroup_of_ne (tag : Str) (children : List Str)
    (h : children.isEmpty = false) :
    serializeGroup tag children =
      S "<" ++ tag ++ S ">" ++ children.flatten ++ S "</" ++ tag ++ S ">" := by
  unfold serializeGroup
  rw [if_neg (by simp [h])]

theorem resolveInputs_files_error (fs : FS) (a : Args) (fps : List Str)
    (ts : List (Str × Str)) (e : Str)
    (h1 : resolveListPhase fs a.listFile a.file = .ok fps)
    (h2 : readTemplatesPhase fs a.prompt = .ok ts)
    (h3 : readFilesPhase fs fps = .error e) :
    resolveInputs fs a = .error e := by
  unfold resolveInputs
  split
  · rename_i e2 heq
    rw [h1] at heq
    cases heq
  · rename_i fps2 heq
    rw [h1] at heq
    cases heq
    split
    · rename_i e2 heq2
      rw [h2] at heq2
      cases heq2
    · rename_i ts2 heq2
      rw [h2] at heq2
      cases heq2
      split
      · rename_i e2 heq3
        rw [h3] at heq3
        cases heq3
        rfl
      · rename_i fd heq3
        rw [h3] at heq3
        cases heq3

/-! ## The claims -/

/-- Claim C1: for every invocation whose inputs all resolve, the rendered
text is one blob: the `prompt` root containing the `templates` node (one
`template` child per resolved template, in order), followed by the `files`
node (one `file` child per resolved file entry, in order); an empty `files`
collection still renders as a present `<files />` node, and the `templates`
node is present and nonempty. -/
theorem C1_document_structure (fs : FS) (a : Args) (T F : List (Str × Str))
    (h : resolveInputs fs a = .ok (T, F)) :
    T ≠ [] ∧
    renderDocument T F =
      S "<prompt>" ++
        (S "<templates>" ++ (T.map templateNode).flatten ++ S "</templates>") ++
        (if F = [] then S "<files />"
         else S "<files>" ++ (F.map fileNode).flatten ++ S "</files>") ++
      S "</prompt>" ∧
    (a.output = none →
      (mainRun fs a).stdout = renderDocument T F ++ [Char.ofNat 10]) := by
  obtain ⟨fps, ts, h1, h2, h3, hT⟩ := resolveInputs_ok_parts fs a T F h
  have hTne : T ≠ [] := hT ▸ applyDefault_ne_nil _
  refine ⟨hTne, ?_, ?_⟩
  · have hmap : (T.map templateNode).isEmpty = false := by
      cases T with
      | nil => exact absurd rfl hTne
      | cons t ts2 => rfl
    unfold renderDocument
    rw [serializeGroup_of_ne _ _ hmap]
    cases F with
    | nil =>
      rw [if_pos rfl]
      simp only [List.append_assoc]
      rfl
    | cons f fs2 =>
      rw [serializeGroup_of_ne _ _ (by rfl), if_neg (by simp)]
      simp only [List.append_assoc]
      rfl
  · intro ho
    rw [mainRun_ok_stdout fs a T F h ho]

theorem C1_witness :
    resolveInputs fsDemo { file := [S "a.txt"] } =
      .ok ([defaultTemplate], [(S "a.txt", S "alpha beta")]) ∧
    ([defaultTemplate] ≠ ([] : List (Str × Str)) ∧
     renderDocument [defaultTemplate] [(S "a.txt", S "alpha beta")] =
       S "<prompt>" ++
         (S "<templates>" ++ ([defaultTemplate].map templateNode).flatten ++ S "</templates>") ++
         (if [(S "a.txt", S "alpha beta")] = ([] : List (Str × Str)) then S "<files />"
          else S "<files>" ++ ([(S "a.txt", S "alpha beta")].map fileNode).flatten ++ S "</files>") ++
       S "</prompt>" ∧
     (({ file := [S "a.txt"] } : Args).output = none →
       (mainRun fsDemo { file := [S "a.txt"] }).stdout =
         renderDocument [defaultTemplate] [(S "a.txt", S "alpha beta")] ++ [Char.ofNat 10])) :=
  ⟨by rfl, C1_document_structure fsDemo { file := [S "a.txt"] } [defaultTemplate]
    [(S "a.txt", S "alpha beta")] (by rfl)⟩

/-- Claim C2: with `--file` flags and a list file, the resolved file order is
all `--file` paths in flag order, then all non-blank stripped list-file lines
in file order, duplicates kept (list equality keeps every entry). -/
theorem C2_file_order (fs : FS) (a : Args) (lp lc : Str) (T F : List (Str × Str))
    (hl : a.listFile = some lp) (hlp : lp ≠ [])
    (hif : fs.isfile lp = true) (hrd : fs.read lp = some lc)
    (h : resolveInputs fs a = .ok (T, F)) :
    F.map Prod.fst =
      a.file ++ ((splitlines lc).map pyStrip).filter (fun l => l.isEmpty = false) := by
  obtain ⟨fps, ts, h1, h2, h3, hT⟩ := resolveInputs_ok_parts fs a T F h
  rw [hl, resolveListPhase_some fs lp a.file lc hlp hif hrd] at h1
  cases h1
  exact readEachFile_ok_fst _ _ _ _ _ h3

theorem C2_witness :
    (({ file := [S "a.txt", S "b.txt"], listFile := some (S "list.txt") } : Args).listFile =
      some (S "list.txt")) ∧
    (S "list.txt" ≠ []) ∧
    fsDemo.isfile (S "list.txt") = true ∧
    fsDemo.read (S "list.txt") = some (S " c.txt \n\nd.txt\n") ∧
    resolveInputs fsDemo { file := [S "a.txt", S "b.txt"], listFile := some (S "list.txt") } =
      .ok ([defaultTemplate],
        [(S "a.txt", S "alpha beta"), (S "b.txt", S "bee"),
         (S "c.txt", S "gamma"), (S "d.txt", S "delta")]) ∧
    [(S "a.txt", S "alpha beta"), (S "b.txt", S "bee"),
     (S "c.txt", S "gamma"), (S "d.txt", S "delta")].map Prod.fst =
      ({ file := [S "a.txt", S "b.txt"], listFile := some (S "list.txt") } : Args).file ++
        ((splitlines (S " c.txt \n\nd.txt\n")).map pyStrip).filter
          (fun l => l.isEmpty = false) :=
  ⟨rfl, by decide, by rfl, by rfl, by rfl,
    C2_file_order fsDemo { file := [S "a.txt", S "b.txt"], listFile := some (S "list.txt") }
      (S "list.txt") (S " c.txt \n\nd.txt\n") [defaultTemplate]
      [(S "a.txt", S "alpha beta"), (S "b.txt", S "bee"),
       (S "c.txt", S "gamma"), (S "d.txt", S "delta")]
      rfl (by decide) (by rfl) (by rfl) (by rfl)⟩

/-- Claim C3: when no `-p` template paths and no positional inline prompts
are given, the template list at serialization time is exactly the single
`default` template; and whenever resolution succeeds the serialized template
list is nonempty. -/
theorem C3_default_template (fs : FS) (a : Args) (T F : List (Str × Str))
    (h : resolveInputs fs a = .ok (T, F)) :
    (a.prompt = [] → a.additional_prompts = [] → T = [defaultTemplate]) ∧ T ≠ [] := by
  obtain ⟨fps, ts, h1, h2, h3, hT⟩ := resolveInputs_ok_parts fs a T F h
  constructor
  · intro hp hi
    rw [hp] at h2
    have h2' : (Except.ok ([] : List (Str × Str)) : Except Str (List (Str × Str))) =
        .ok ts := h2
    cases h2'
    rw [hi] at hT
    simpa [inlineTemplates, inlineTemplatesFrom, applyDefault] using hT
  · exact hT ▸ applyDefault_ne_nil _

theorem C3_witness :
    resolveInputs fsDemo { file := [S "b.txt"] } =
      .ok ([defaultTemplate], [(S "b.txt", S "bee")]) ∧
    ((({ file := [S "b.txt"] } : Args).prompt = [] →
        ({ file := [S "b.txt"] } : Args).additional_prompts = [] →
        [defaultTemplate] = [defaultTemplate]) ∧
      [defaultTemplate] ≠ ([] : List (Str × Str))) :=
  ⟨by rfl, C3_default_template fsDemo { file := [S "b.txt"] } [defaultTemplate]
    [(S "b.txt", S "bee")] (by rfl)⟩

/-- Claim C4, counterexample: a carriage return embedded as text content is
serialized unescaped by `_escape_cdata`, and a conformant parser's mandatory
end-of-line normalization returns it as a line feed, so embed-then-parse is
not the identity on content. -/
theorem C4_counterexample :
    conformantTextParse (escape_cdata ['\r']) = some ['\n'] ∧
    (['\n'] : Str) ≠ ['\r'] := by decide

/-- Claim C4, amended: embed-then-parse is the identity on every text content
made of XML-representable characters that contains no carriage return, and on
every attribute value made of XML-representable characters (there CR, LF and
TAB are emitted as character references and survive). -/
theorem C4_roundtrip_amended (s t : Str)
    (hs : ∀ c ∈ s, validXmlChar c = true) (hcr : '\r' ∉ s)
    (ht : ∀ c ∈ t, validXmlChar c = true) :
    conformantTextParse (escape_cdata s) = some s ∧
    conformantAttrParse (escape_attrib t) = some t :=
  ⟨conformantTextParse_escape s hs hcr, conformantAttrParse_escape t ht⟩

theorem C4_roundtrip_witness :
    (∀ c ∈ S "a<&>\"b", validXmlChar c = true) ∧ '\r' ∉ S "a<&>\"b" ∧
    (∀ c ∈ S "p\"q\rr\n<&\t", validXmlChar c = true) ∧
    conformantTextParse (escape_cdata (S "a<&>\"b")) = some (S "a<&>\"b") ∧
    conformantAttrParse (escape_attrib (S "p\"q\rr\n<&\t")) = some (S "p\"q\rr\n<&\t") := by
  refine ⟨by decide, by decide, by decide, ?_⟩
  exact C4_roundtrip_amended (S "a<&>\"b") (S "p\"q\rr\n<&\t")
    (by decide) (by decide) (by decide)

/-- Claim C5: when a file path (from `-f` or the list file) is the first
failing path, the run exits with code 1, writes nothing to standard output and
to the `-o` destination, prints exactly one diagnostic line unless silent, and
that message contains the failing path. -/
theorem C5_first_failing_file (fs : FS) (a : Args) (fps pre post : List Str)
    (p : Str) (ts : List (Str × Str))
    (hlist : resolveListPhase fs a.listFile a.file = .ok fps)
    (htmpl : readTemplatesPhase fs a.prompt = .ok ts)
    (hsplit : fps = pre ++ p :: post)
    (hpre : ∀ q ∈ pre, fs.isfile q = true ∧ ∃ c, fs.read q = some c)
    (hfail : fs.isfile p = false ∨ fs.read p = none) :
    (mainRun fs a).exitCode = 1 ∧ (mainRun fs a).stdout = [] ∧
    (mainRun fs a).written = none ∧
    (mainRun fs a).stderr =
      (if a.silent then []
       else [if fs.isfile p = false then errFileMissing p else errFileRead p]) ∧
    (∃ u v, (if fs.isfile p = false then errFileMissing p else errFileRead p) =
      u ++ p ++ v) := by
  have hfiles : readFilesPhase fs fps =
      .error (if fs.isfile p = false then errFileMissing p else errFileRead p) := by
    rw [hsplit]
    exact readEachFile_firstError fs errFileMissing errFileRead pre p post hpre hfail
  have herr := resolveInputs_files_error fs a fps ts _ hlist htmpl hfiles
  rw [mainRun_err fs a _ herr]
  refine ⟨rfl, rfl, rfl, rfl, ?_⟩
  by_cases hif : fs.isfile p = false
  · refine ⟨S "Error: File " ++ [squote],
      [squote] ++ S " does not exist or is not accessible.", ?_⟩
    rw [if_pos hif]
    simp [errFileMissing, List.append_assoc]
  · refine ⟨S "Error: Could not read file " ++ [squote], [squote] ++ S ".", ?_⟩
    rw [if_neg hif]
    simp [errFileRead, List.append_assoc]

theorem C5_witness :
    resolveListPhase fsDemo ({ file := [S "a.txt", S "missing.txt"] } : Args).listFile
      ({ file := [S "a.txt", S "missing.txt"] } : Args).file =
        .ok [S "a.txt", S "missing.txt"] ∧
    readTemplatesPhase fsDemo ({ file := [S "a.txt", S "missing.txt"] } : Args).prompt =
      .ok [] ∧
    ([S "a.txt", S "missing.txt"] = [S "a.txt"] ++ S "missing.txt" :: []) ∧
    (∀ q ∈ [S "a.txt"], fsDemo.isfile q = true ∧ ∃ c, fsDemo.read q = some c) ∧
    (fsDemo.isfile (S "missing.txt") = false ∨ fsDemo.read (S "missing.txt") = none) ∧
    ((mainRun fsDemo { file := [S "a.txt", S "missing.txt"] }).exitCode = 1 ∧
     (mainRun fsDemo { file := [S "a.txt", S "missing.txt"] }).stdout = [] ∧
     (mainRun fsDemo { file := [S "a.txt", S "missing.txt"] }).written = none ∧
     (mainRun fsDemo { file := [S "a.txt", S "missing.txt"] }).stderr =
       (if ({ file := [S "a.txt", S "missing.txt"] } : Args).silent then []
        else [if fsDemo.isfile (S "missing.txt") = false
              then errFileMissing (S "missing.txt") else errFileRead (S "missing.txt")]) ∧
     (∃ u v, (if fsDemo.isfile (S "missing.txt") = false
              then errFileMissing (S "missing.txt")
              else errFileRead (S "missing.txt")) = u ++ S "missing.txt" ++ v)) := by
  have hq : ∀ q ∈ [S "a.txt"], fsDemo.isfile q = true ∧ ∃ c, fsDemo.read q = some c := by
    intro q hq
    rw [List.mem_singleton] at hq
    subst hq
    exact ⟨by rfl, S "alpha beta", by rfl⟩
  refine ⟨by rfl, by rfl, by rfl, hq, Or.inl (by rfl), ?_⟩
  exact C5_first_failing_file fsDemo { file := [S "a.txt", S "missing.txt"] }
    [S "a.txt", S "missing.txt"] [S "a.txt"] [] (S "missing.txt") []
    (by rfl) (by rfl) (by rfl) hq (Or.inl (by rfl))

/-- Claim C6: with `-s`, whether the run succeeds or fails, nothing at all is
printed to the diagnostic stream, and the exit code is the one the same
invocation without `-s` produces. -/
theorem C6_silent (fs : FS) (a : Args) :
    (mainRun fs { a with silent := true }).stderr = [] ∧
    (mainRun fs { a with silent := true }).exitCode =
      (mainRun fs { a with silent := false }).exitCode := by
  obtain ⟨pr, fl, lf, op, sl, ap⟩ := a
  cases h : resolveInputs fs (Args.mk pr fl lf op sl ap) with
  | error msg =>
    rw [mainRun_err fs (Args.mk pr fl lf op true ap) msg h,
        mainRun_err fs (Args.mk pr fl lf op false ap) msg h]
    exact ⟨rfl, rfl⟩
  | ok tf =>
    obtain ⟨T, F⟩ := tf
    cases op with
    | none =>
      rw [mainRun_ok_stdout fs (Args.mk pr fl lf none true ap) T F h rfl,
          mainRun_ok_stdout fs (Args.mk pr fl lf none false ap) T F h rfl]
      exact ⟨rfl, rfl⟩
    | some op2 =>
      cases hop : op2.isEmpty with
      | true =>
        rw [mainRun_ok_output_empty fs (Args.mk pr fl lf (some op2) true ap) T F op2 h rfl hop,
            mainRun_ok_output_empty fs (Args.mk pr fl lf (some op2) false ap) T F op2 h rfl hop]
        exact ⟨rfl, rfl⟩
      | false =>
        cases hw : fs.canWrite op2 with
        | true =>
          rw [mainRun_ok_write fs (Args.mk pr fl lf (some op2) true ap) T F op2 h rfl hop hw,
              mainRun_ok_write fs (Args.mk pr fl lf (some op2) false ap) T F op2 h rfl hop hw]
          exact ⟨rfl, rfl⟩
        | false =>
          rw [mainRun_write_fail fs (Args.mk pr fl lf (some op2) true ap) T F op2 h rfl hop hw,
              mainRun_write_fail fs (Args.mk pr fl lf (some op2) false ap) T F op2 h rfl hop hw]
          exact ⟨rfl, rfl⟩

/-- Claim C7: every successful non-silent run reports, as its only diagnostic
line, exactly `Success: Prompt generated with N tokens.` where `N` is the
number of maximal runs of non-whitespace characters of the rendered text. -/
theorem C7_success_report (fs : FS) (a : Args) (T F : List (Str × Str))
    (h : resolveInputs fs a = .ok (T, F)) (hs : a.silent = false)
    (hw : ∀ op, a.output = some op → op.isEmpty = false → fs.canWrite op = true) :
    (mainRun fs a).exitCode = 0 ∧
    (mainRun fs a).stderr =
      [S "Success: Prompt generated with " ++
        (Nat.repr (countRuns (renderDocument T F))).data ++ S " tokens."] := by
  have hline : successLine (renderDocument T F) =
      S "Success: Prompt generated with " ++
        (Nat.repr (countRuns (renderDocument T F))).data ++ S " tokens." := by
    unfold successLine
    rw [pySplit_length_eq_countRuns]
  cases ho : a.output with
  | none =>
    rw [mainRun_ok_stdout fs a T F h ho]
    simp [hs, hline]
  | some op =>
    cases hop : op.isEmpty with
    | true =>
      rw [mainRun_ok_output_empty fs a T F op h ho hop]
      simp [hs, hline]
    | false =>
      rw [mainRun_ok_write fs a T F op h ho hop (hw op ho hop)]
      simp [hs, hline]

theorem C7_witness :
    resolveInputs fsDemo { file := [S "a.txt"] } =
      .ok ([defaultTemplate], [(S "a.txt", S "alpha beta")]) ∧
    ({ file := [S "a.txt"] } : Args).silent = false ∧
    ((mainRun fsDemo { file := [S "a.txt"] }).exitCode = 0 ∧
     (mainRun fsDemo { file := [S "a.txt"] }).stderr =
       [S "Success: Prompt generated with " ++
         (Nat.repr (countRuns (renderDocument [defaultTemplate]
           [(S "a.txt", S "alpha beta")]))).data ++ S " tokens."]) :=
  ⟨by rfl, rfl,
    C7_success_report fsDemo { file := [S "a.txt"] } [defaultTemplate]
      [(S "a.txt", S "alpha beta")] (by rfl) rfl (fun op hop _ => nomatch hop)⟩

/-- Claim C8: the run is a pure function of the parsed options and the file
contents: two file systems that agree on every path produce identical results,
byte for byte — there is no other input. -/
theorem C8_determinism (fs1 fs2 : FS) (a : Args)
    (h1 : ∀ p, fs1.isfile p = fs2.isfile p)
    (h2 : ∀ p, fs1.read p = fs2.read p)
    (h3 : ∀ p, fs1.canWrite p = fs2.canWrite p) :
    mainRun fs1 a = mainRun fs2 a := by
  have hfs : fs1 = fs2 := by
    cases fs1
    cases fs2
    simp only [FS.mk.injEq]
    exact ⟨funext h1, funext h2, funext h3⟩
  rw [hfs]

theorem C8_witness :
    (∀ p, fsDemo.isfile p = fsDemo.isfile p) ∧
    (∀ p, fsDemo.read p = fsDemo.read p) ∧
    (∀ p, fsDemo.canWrite p = fsDemo.canWrite p) ∧
    mainRun fsDemo { file := [S "a.txt"] } = mainRun fsDemo { file := [S "a.txt"] } :=
  ⟨fun _ => rfl, fun _ => rfl, fun _ => rfl,
    C8_determinism fsDemo fsDemo { file := [S "a.txt"] }
      (fun _ => rfl) (fun _ => rfl) (fun _ => rfl)⟩

/-- Claim C9: without `-o` standard output receives the rendered text plus
one trailing newline added by `print`, while with `-o` the destination file
receives exactly the rendered text with no trailing newline; the reported
token count is computed on the rendered text without the added newline. -/
theorem C9_trailing_newline (fs : FS) (a : Args) (T F : List (Str × Str)) (op : Str)
    (h : resolveInputs fs a = .ok (T, F)) (hop : op.isEmpty = false)
    (hw : fs.canWrite op = true) :
    (mainRun fs { a with output := none }).stdout =
      renderDocument T F ++ [Char.ofNat 10] ∧
    (mainRun fs { a with output := none }).written = none ∧
    (mainRun fs { a with output := some op }).written =
      some (op, renderDocument T F) ∧
    (mainRun fs { a with output := some op }).stdout = [] ∧
    (a.silent = false →
      (mainRun fs { a with output := none }).stderr =
        [successLine (renderDocument T F)] ∧
      (mainRun fs { a with output := some op }).stderr =
        [successLine (renderDocument T F)]) := by
  have hres1 : resolveInputs fs { a with output := none } = .ok (T, F) := h
  have hres2 : resolveInputs fs { a with output := some op } = .ok (T, F) := h
  rw [mainRun_ok_stdout fs { a with output := none } T F hres1 rfl,
      mainRun_ok_write fs { a with output := some op } T F op hres2 rfl hop hw]
  refine ⟨rfl, rfl, rfl, rfl, fun hs => ?_⟩
  constructor
  · show (if a.silent then [] else [successLine (renderDocument T F)]) = _
    rw [hs, if_neg (by simp)]
  · show (if a.silent then [] else [successLine (renderDocument T F)]) = _
    rw [hs, if_neg (by simp)]

theorem C9_witness :
    resolveInputs fsDemo argsB0 = .ok ([defaultTemplate], [(S "b.txt", S "bee")]) ∧
    (S "out.txt").isEmpty = false ∧
    fsDemo.canWrite (S "out.txt") = true ∧
    ((mainRun fsDemo { argsB0 with output := none }).stdout =
      renderDocument [defaultTemplate] [(S "b.txt", S "bee")] ++ [Char.ofNat 10] ∧
     (mainRun fsDemo { argsB0 with output := none }).written = none ∧
     (mainRun fsDemo { argsB0 with output := some (S "out.txt") }).written =
       some (S "out.txt", renderDocument [defaultTemplate] [(S "b.txt", S "bee")]) ∧
     (mainRun fsDemo { argsB0 with output := some (S "out.txt") }).stdout = [] ∧
     (argsB0.silent = false →
       (mainRun fsDemo { argsB0 with output := none }).stderr =
         [successLine (renderDocument [defaultTemplate] [(S "b.txt", S "bee")])] ∧
       (mainRun fsDemo { argsB0 with output := some (S "out.txt") }).stderr =
         [successLine (renderDocument [defaultTemplate] [(S "b.txt", S "bee")])])) :=
  ⟨by rfl, by rfl, by rfl,
    C9_trailing_newline fsDemo argsB0
      [defaultTemplate] [(S "b.txt", S "bee")] (S "out.txt")
      (by rfl) (by rfl) (by rfl)⟩

/-- Claim C10: each positional argument, the empty string included, becomes
its own template named `inline_prompt_i` for its 1-based position, and the
default template is substituted exactly when the count of `-p` templates plus
positional arguments is zero — supplied templates with empty text suffice to
suppress it. -/
theorem C10_inline_empty (fs : FS) (a : Args) (ts : List (Str × Str))
    (h : readTemplatesPhase fs a.prompt = .ok ts) :
    (applyDefault (ts ++ inlineTemplates a.additional_prompts) =
      if a.prompt.length + a.additional_prompts.length = 0 then [defaultTemplate]
      else ts ++ inlineTemplates a.additional_prompts) ∧
    (∀ i : Nat, (inlineTemplates a.additional_prompts)[i]? =
      (a.additional_prompts[i]?).map
        (fun s => (S "inline_prompt_" ++ (Nat.repr (i + 1)).data, s))) := by
  constructor
  · have hlen : ts.length = a.prompt.length := by
      have hfst := readEachFile_ok_fst fs errPromptMissing errPromptRead a.prompt ts h
      calc ts.length = (ts.map Prod.fst).length := by simp
        _ = a.prompt.length := by rw [hfst]
    have hilen : (inlineTemplates a.additional_prompts).length =
        a.additional_prompts.length := inlineTemplatesFrom_length 0 _
    by_cases hz : a.prompt.length + a.additional_prompts.length = 0
    · have hts : ts = [] := List.eq_nil_of_length_eq_zero (by omega)
      have hin : inlineTemplates a.additional_prompts = [] :=
        List.eq_nil_of_length_eq_zero (by omega)
      rw [hts, hin, if_pos hz]
      rfl
    · rw [if_neg hz]
      unfold applyDefault
      have hlen2 : (ts ++ inlineTemplates a.additional_prompts).length ≠ 0 := by
        simp only [List.length_append, hlen, hilen]
        omega
      have hne : (ts ++ inlineTemplates a.additional_prompts).isEmpty = false := by
        cases hcase : ts ++ inlineTemplates a.additional_prompts with
        | nil => rw [hcase] at hlen2; simp at hlen2
        | cons x l => rfl
      rw [if_neg (by simp [hne])]
  · intro i
    have := inlineTemplatesFrom_getElem? 0 a.additional_prompts i
    simpa [inlineTemplates] using this

theorem C10_witness :
    readTemplatesPhase fsDemo ({ additional_prompts := [S ""] } : Args).prompt = .ok [] ∧
    ((applyDefault ([] ++ inlineTemplates ({ additional_prompts := [S ""] } : Args).additional_prompts) =
       if ({ additional_prompts := [S ""] } : Args).prompt.length +
          ({ additional_prompts := [S ""] } : Args).additional_prompts.length = 0
       then [defaultTemplate]
       else [] ++ inlineTemplates ({ additional_prompts := [S ""] } : Args).additional_prompts) ∧
     (∀ i : Nat,
       (inlineTemplates ({ additional_prompts := [S ""] } : Args).additional_prompts)[i]? =
         (({ additional_prompts := [S ""] } : Args).additional_prompts[i]?).map
           (fun s => (S "inline_prompt_" ++ (Nat.repr (i + 1)).data, s)))) :=
  ⟨by rfl, C10_inline_empty fsDemo { additional_prompts := [S ""] } [] (by rfl)⟩

/-! ## Sanity checks of the embedding against the behaviour the repository's
own unit tests assert -/

theorem splitlines_two_lines :
    splitlines (S "file1.py\nfile2.md") = [S "file1.py", S "file2.md"] := by decide

theorem splitlines_crlf_and_lone_cr : splitlines (S "a\r\nb\r") = [S "a", S "b"] := by decide

theorem splitlines_empty : splitlines (S "") = [] := by decide

theorem pyStrip_example : pyStrip (S "  a b\t") = S "a b" := by decide

theorem pySplit_example : pySplit (S " one  two\nthree ") = [S "one", S "two", S "three"] := by
  decide

theorem countRuns_example : countRuns (S " one  two\nthree ") = 3 := by decide

theorem basename_example : basename (S "dir/a.txt") = S "a.txt" := by decide

theorem escape_cdata_example : escape_cdata (S "a<b&c>d") = S "a&lt;b&amp;c&gt;d" := by decide

theorem escape_attrib_example : escape_attrib (S "x\"y\n") = S "x&quot;y&#10;" := by decide

theorem serializeGroup_empty_files : serializeGroup (S "files") [] = S "<files />" := by decide

theorem templateNode_example :
    templateNode (S "template.txt", S "Hi there") =
      S "<template name=\"template.txt\">Hi there</template>" := by decide

theorem renderDocument_default_example :
    renderDocument [defaultTemplate] [(S "somefile.py", S "file content")] =
      S "<prompt><templates><template name=\"default\">Please analyze the provided files and summarize their purpose and functionality.</template></templates><files><file path=\"somefile.py\">file content</file></files></prompt>" := by
  decide

theorem mainRun_single_file_exit0 :
    (mainRun
      ⟨fun p => p = S "somefile.py",
       fun p => if p = S "somefile.py" then some (S "file content") else none,
       fun _ => true⟩
      { file := [S "somefile.py"] }).exitCode = 0 := by decide

theorem mainRun_missing_file_example :
    mainRun
      ⟨fun _ => false, fun _ => none, fun _ => true⟩
      { file := [S "missingfile.txt"] } =
      ⟨1, [], [errFileMissing (S "missingfile.txt")], none⟩ := by decide
